import Mathlib

/-!
Verification of the Frame Analysis System Streamlit client (`src/app.py`)
against its natural-language specification.

The file shallow-embeds the claim-relevant parts of `app.py` as executable
Lean definitions: the severity classifier and result-normalization defaults
(lines 334-509), the tab-2 findings rendering and its top-level execution
order (lines 318-509), the per-call HTTP timeouts (lines 129, 168-173,
186-189, 199-202, 264-269, 282-284, 293-295, 447-450), and the two polling
loops (video: lines 184-223; image sequence: lines 280-311) together with
the image-upload pre-flight validation (lines 239-269).

Network responses are modelled as oracles: a status-response per attempt and
one result-fetch response.  Each UI side effect of the script (progress-bar
updates, info/success/error/warning messages, the blocking sleep) and each
HTTP request issued becomes an event in an explicit trace, so the theorems
can speak about what the user was shown and which requests were made.
-/

namespace FrameApp

/-! ## Python string primitives used by `app.py` -/

/-- `startsWithL n h` is true when the char list `h` starts with `n`. -/
def startsWithL : List Char → List Char → Bool
  | [], _ => true
  | _ :: _, [] => false
  | a :: as, b :: bs => a == b && startsWithL as bs

/-- `hasSub n h`: the char list `n` occurs contiguously inside `h`
(Python's `n in h` on strings). -/
def hasSub (needle : List Char) : List Char → Bool
  | [] => needle.isEmpty
  | c :: cs => startsWithL needle (c :: cs) || hasSub needle cs

/-- Python `needle in hay` for strings. -/
def pyIn (needle hay : String) : Bool :=
  hasSub needle.toList hay.toList

/-- Python `str.lower()` restricted to ASCII, which is all the severity
keywords of `app.py` need (`Char.toLower` lowercases exactly `A`-`Z`). -/
def pyLower (s : String) : String :=
  String.mk (s.toList.map Char.toLower)

/-- Replace every non-overlapping occurrence of `pat` by `rep`, scanning
left to right — Python `str.replace` semantics for a non-empty `pat`.  The
first argument is fuel, a bound on the number of steps; each step consumes
at least one character, so fuel equal to the list length (as `replaceAllL`
passes) never runs out. -/
def replaceGo (pat rep : List Char) : Nat → List Char → List Char
  | 0, l => l
  | _ + 1, [] => []
  | fuel + 1, c :: cs =>
    if !pat.isEmpty && startsWithL pat (c :: cs) then
      rep ++ replaceGo pat rep fuel (List.drop (pat.length - 1) cs)
    else
      c :: replaceGo pat rep fuel cs

/-- Python `s.replace(pat, rep)` for a non-empty `pat`. -/
def pyReplace (s pat rep : String) : String :=
  String.mk (replaceGo pat.toList rep.toList s.toList.length s.toList)

/-- One step of Python `str.title()`: a letter directly after a letter is
lowercased, any other letter is uppercased (ASCII). -/
def titleGo : Bool → List Char → List Char
  | _, [] => []
  | prevAlpha, c :: cs =>
    (if prevAlpha then c.toLower else c.toUpper) :: titleGo c.isAlpha cs

/-- Python `s.title()` (ASCII). -/
def pyTitle (s : String) : String :=
  String.mk (titleGo false s.toList)

/-! ## Data model: raw result payloads (§3 of the spec)

A raw payload is JSON whose fields may be absent; an absent field is an
`Option` that is `none`.  `app.py` reads every field with `dict.get` and a
default, so the embedding mirrors exactly those reads. -/

/-- The `location` object of a finding: optional `start`/`end` seconds and
an optional `frames` list (`stop` models the Python key `end`, a reserved
word in Lean).  Times are integral seconds; the claims never depend on
fractional values. -/
structure LocDict where
  start : Option Int
  stop : Option Int
  frames : Option (List Int)
deriving DecidableEq, Repr

/-- A metric value: numeric or textual (`app.py` lines 505-508). -/
inductive MetricVal
  | intV (n : Int)
  | strV (s : String)
deriving DecidableEq, Repr

/-- A raw finding as fetched: every sub-field may be missing.  `ftype`
models the Python key `type`. -/
structure RawFinding where
  ftype : Option String
  severity : Option String
  location : Option LocDict
  explanation : Option String
  metrics : Option (List (String × MetricVal))
deriving DecidableEq, Repr

/-- A raw result payload: `media_info` and `findings` may be missing. -/
structure RawResult where
  media_info : Option (List (String × String))
  findings : Option (List RawFinding)
deriving DecidableEq, Repr

/-! ## Result normalization (`app.py` lines 334, 347, 355, 363, 474-488) -/

/-- `results.get('media_info', {})` (line 334). -/
def getMediaInfo (r : RawResult) : List (String × String) :=
  r.media_info.getD []

/-- `results.get('findings', [])` (line 347). -/
def getFindings (r : RawResult) : List RawFinding :=
  r.findings.getD []

/-- `str(finding.get('severity', ''))` (lines 355, 377-379, 403-405). -/
def sevString (f : RawFinding) : String :=
  f.severity.getD ""

/-- `finding.get('type', 'Unknown').replace('FindingType.', '').replace('_', ' ')`
(line 474). -/
def finding_type (f : RawFinding) : String :=
  pyReplace (pyReplace (f.ftype.getD "Unknown") "FindingType." "") "_" " "

/-- `finding.get('location', {})` (lines 363, 475). -/
def getLocation (f : RawFinding) : LocDict :=
  f.location.getD ⟨none, none, none⟩

/-- `finding.get('explanation', '')` (line 476). -/
def getExplanation (f : RawFinding) : String :=
  f.explanation.getD ""

/-- `finding.get('metrics', {})` (line 477). -/
def getMetrics (f : RawFinding) : List (String × MetricVal) :=
  f.metrics.getD []

/-- Python `f"{t:.2f}"` on an integral number of seconds. -/
def fmt2 (n : Int) : String :=
  toString n ++ ".00"

/-- The location string of `display_finding` (lines 480-488): a time range
when both `start` and `end` are present, else the frame list when `frames`
is present, else `"N/A"`. -/
def loc_str (loc : LocDict) : String :=
  match loc.start, loc.stop with
  | some s, some e => fmt2 s ++ "s - " ++ fmt2 e ++ "s"
  | _, _ =>
    match loc.frames with
    | some fr =>
      let base := "Frames: " ++ String.intercalate ", " ((fr.take 5).map toString)
      if fr.length > 5 then base ++ "... (" ++ toString fr.length ++ " total)" else base
    | none => "N/A"

/-- How one metric value is rendered (lines 505-508; the float format
branch does not arise for integral or textual values). -/
def showMetricVal : MetricVal → String
  | .intV n => toString n
  | .strV s => s

/-- What `display_finding` puts on screen for one finding: the finding
card's type, location and explanation text plus the rendered metrics. -/
structure FindingCard where
  typeShown : String
  locShown : String
  explShown : String
  metricsShown : List (String × String)
deriving DecidableEq, Repr

/-- The body of `display_finding` (lines 472-508) as a pure rendering
function. -/
def display_finding (f : RawFinding) : FindingCard :=
  { typeShown := finding_type f
    locShown := loc_str (getLocation f)
    explShown := getExplanation f
    metricsShown :=
      (getMetrics f).map fun kv => (pyTitle (pyReplace kv.1 "_" " "), showMetricVal kv.2) }

/-! ## Severity classifier (`app.py` lines 376-380, 403-405) -/

/-- Membership of one finding in one severity bucket:
`kw in str(f.get('severity', '')).lower()`. -/
def inBucket (kw : String) (f : RawFinding) : Bool :=
  pyIn kw (pyLower (sevString f))

/-- `[f for f in findings if 'high' in str(f.get('severity', '')).lower()]`
(line 403). -/
def high_findings (fs : List RawFinding) : List RawFinding :=
  fs.filter (inBucket "high")

/-- Line 404, the medium bucket. -/
def medium_findings (fs : List RawFinding) : List RawFinding :=
  fs.filter (inBucket "medium")

/-- Line 405, the low bucket. -/
def low_findings (fs : List RawFinding) : List RawFinding :=
  fs.filter (inBucket "low")

/-- The per-bucket counts of lines 376-380, computed independently by the
same substring test. -/
def severity_counts (fs : List RawFinding) : Nat × Nat × Nat :=
  ((fs.filter (inBucket "high")).length,
   (fs.filter (inBucket "medium")).length,
   (fs.filter (inBucket "low")).length)

/-! ## Tab-2 findings rendering and top-level execution order (C1)

A Streamlit script is executed top to bottom on every run in a fresh
namespace, binding each top-level name as its `def` statement executes.
The findings-rendering code (lines 408-423) calls `display_finding`, whose
top-level `def` is at line 472 — after the whole tab-2 block.  The call is
therefore a lookup of a not-yet-bound name: a `NameError`. -/

/-- Rendering one severity group (the `for finding in …: display_finding(…)`
loops of lines 410-423): each iteration looks `display_finding` up in the
namespace built so far; when it is not bound, the iteration raises
`NameError` for that name. -/
def renderGroup (displayDefined : Bool) (tag : String) :
    List RawFinding → Except String (List (String × FindingCard))
  | [] => Except.ok []
  | f :: fs =>
    if displayDefined then
      match renderGroup displayDefined tag fs with
      | Except.ok rest => Except.ok ((tag, display_finding f) :: rest)
      | Except.error e => Except.error e
    else
      Except.error "display_finding"

/-- The findings-display part of tab 2 (lines 403-423): group the findings,
then render each group whose bucket is in the severity filter and is
non-empty, in the order High, Medium, Low; a raised `NameError`
(`Except.error`) stops the script at that point. -/
def tab2FindingsRender (displayDefined : Bool) (findings : List RawFinding)
    (sevFilter : List String) : Except String (List (String × FindingCard)) :=
  match (if sevFilter.contains "High" && !(high_findings findings).isEmpty then
      renderGroup displayDefined "high" (high_findings findings)
    else Except.ok []) with
  | Except.error e => Except.error e
  | Except.ok p1 =>
    match (if sevFilter.contains "Medium" && !(medium_findings findings).isEmpty then
        renderGroup displayDefined "medium" (medium_findings findings)
      else Except.ok []) with
    | Except.error e => Except.error e
    | Except.ok p2 =>
      match (if sevFilter.contains "Low" && !(low_findings findings).isEmpty then
          renderGroup displayDefined "low" (low_findings findings)
        else Except.ok []) with
      | Except.error e => Except.error e
      | Except.ok p3 => Except.ok (p1 ++ p2 ++ p3)

/-- At the point the tab-2 block executes (lines 318-469), the top-level
`def display_finding` at line 472 has not executed yet, so the name is not
bound. -/
def displayFindingDefinedAtTab2 : Bool := false

/-- The tab-2 findings display as the script actually runs it. -/
def tab2Run (findings : List RawFinding) (sevFilter : List String) :
    Except String (List (String × FindingCard)) :=
  tab2FindingsRender displayFindingDefinedAtTab2 findings sevFilter

/-! ## Transport client: the HTTP calls and their per-call timeouts (C2)

`app.py` issues eight `requests` calls.  `timeoutOf` records, for each, the
`timeout=` argument the source passes (in seconds); `none` means the call
passes no timeout at all, so the request is unbounded. -/

/-- The eight HTTP calls of `app.py`, by site. -/
inductive ReqKind
  | healthCheck
  | submitVideo
  | submitImages
  | videoStatusPoll
  | videoResultFetch
  | imageStatusPoll
  | imageResultFetch
  | pdfExport
deriving DecidableEq, Repr

/-- The `timeout=` argument each call site passes: line 129 (`timeout=5`),
line 172 (`timeout=60`), line 268 (`timeout=60`), line 188 (`timeout=5`),
line 201 (`timeout=5`), lines 282-284 (no timeout argument), lines 293-295
(no timeout argument), line 449 (`timeout=30`). -/
def timeoutOf : ReqKind → Option Nat
  | .healthCheck => some 5
  | .submitVideo => some 60
  | .submitImages => some 60
  | .videoStatusPoll => some 5
  | .videoResultFetch => some 5
  | .imageStatusPoll => none
  | .imageResultFetch => none
  | .pdfExport => some 30

/-! ## Polling loops (`app.py` video: lines 184-223, image: lines 280-311)

The remote service is an oracle: `stat attempt` is what the status request
of that attempt does (raise, or return an HTTP response with a decoded
`status` and optional `error` field), `fetch` what the one result request
does. -/

/-- Outcome of one status request: a raised transport exception
(connection failure or timeout), or an HTTP response with its status code
and decoded body fields (the body fields are only read when the code
is 200). -/
inductive StatusResp
  | exn (msg : String)
  | http (code : Nat) (status : String) (errorField : Option String)
deriving DecidableEq, Repr

/-- Outcome of the result request after `completed`. -/
inductive FetchResp
  | exn (msg : String)
  | http (code : Nat) (body : RawResult)
deriving DecidableEq, Repr

/-- One observable step of the script: an HTTP request issued or a UI side
effect. -/
inductive Ev
  | statusReq (attempt : Nat)
  | resultReq
  | submitReq
  | progressSet (n : Nat)
  | procInfo (elapsedSecs : Nat)
  | successMsg (msg : String)
  | errorMsg (msg : String)
  | setResults (r : RawResult)
  | sleepSecs (n : Nat)
  | warnMsg (msg : String)
  | infoMsg (msg : String)
deriving DecidableEq, Repr

/-- How a polling loop ended. -/
inductive Outcome
  | gotResults (r : RawResult)
  | resultFetchSilent
  | jobFailed (msg : String)
  | statusCheckFailed
  | exhausted
  | exnAbort (msg : String)
deriving DecidableEq, Repr

/-- `int(min((attempt / max_attempts) * 100, 95))` (lines 216, 308): the
displayed progress estimate, as its exact integer value. -/
def pollProgress (attempt maxAttempts : Nat) : Nat :=
  min (attempt * 100 / maxAttempts) 95

/-- The shared `completed` branch of both loops (video lines 194-208,
image lines 289-301): set progress to 100, announce completion, fetch the
result; store it and rerun on HTTP 200, report a raised exception via the
enclosing `except`, and on a non-200 code just fall through to `break`. -/
def completedTail (fetch : FetchResp) (attempt : Nat) : List Ev :=
  [Ev.statusReq attempt, Ev.progressSet 100,
   Ev.successMsg "✅ Analysis complete!", Ev.resultReq] ++
  match fetch with
  | .exn m => [Ev.errorMsg ("Error: " ++ m)]
  | .http fc body => if fc == 200 then [Ev.setResults body] else []

/-- The loop outcome of the `completed` branch, by fetch response. -/
def completedOutcome (fetch : FetchResp) : Outcome :=
  match fetch with
  | .exn m => Outcome.exnAbort m
  | .http fc body => if fc == 200 then Outcome.gotResults body else Outcome.resultFetchSilent

/-- The video polling loop (lines 184-223), `fuel` attempts remaining,
`attempt` the current counter value.  A raised request exception is caught
by the enclosing `try`/`except` of line 227, which reports it and abandons
the whole operation; a non-200 status response hits the `else` of lines
221-223: report "Failed to check status" and `break`. -/
def videoLoopGo (stat : Nat → StatusResp) (fetch : FetchResp) :
    Nat → Nat → List Ev × Outcome
  | 0, _ => ([], Outcome.exhausted)
  | fuel + 1, attempt =>
    match stat attempt with
    | .exn m => ([Ev.statusReq attempt, Ev.errorMsg ("Error: " ++ m)], Outcome.exnAbort m)
    | .http code status errF =>
      if code == 200 then
        if status == "completed" then
          (completedTail fetch attempt, completedOutcome fetch)
        else if status == "failed" then
          ([Ev.statusReq attempt,
            Ev.errorMsg ("❌ Analysis failed: " ++ errF.getD "Unknown error")],
           Outcome.jobFailed (errF.getD "Unknown error"))
        else
          let rest := videoLoopGo stat fetch fuel (attempt + 1)
          (Ev.statusReq attempt :: Ev.progressSet (pollProgress attempt 150) ::
            Ev.procInfo (attempt * 2) :: Ev.sleepSecs 2 :: rest.1, rest.2)
      else
        ([Ev.statusReq attempt, Ev.errorMsg "Failed to check status"],
         Outcome.statusCheckFailed)

/-- `for attempt in range(max_attempts)` with `max_attempts = 150`
(lines 184-185). -/
def videoRun (stat : Nat → StatusResp) (fetch : FetchResp) : List Ev × Outcome :=
  videoLoopGo stat fetch 150 0

/-- The image-sequence polling loop (lines 280-311).  It differs from the
video loop in one way the claims care about: there is no `else` for a
non-200 status response (the `if` of line 286 has no else-branch), so the
loop silently falls through to the next attempt — no message, no `break`,
not even the sleep. -/
def imageLoopGo (stat : Nat → StatusResp) (fetch : FetchResp) :
    Nat → Nat → List Ev × Outcome
  | 0, _ => ([], Outcome.exhausted)
  | fuel + 1, attempt =>
    match stat attempt with
    | .exn m => ([Ev.statusReq attempt, Ev.errorMsg ("Error: " ++ m)], Outcome.exnAbort m)
    | .http code status errF =>
      if code == 200 then
        if status == "completed" then
          (completedTail fetch attempt, completedOutcome fetch)
        else if status == "failed" then
          ([Ev.statusReq attempt,
            Ev.errorMsg ("❌ Analysis failed: " ++ errF.getD "Unknown error")],
           Outcome.jobFailed (errF.getD "Unknown error"))
        else
          let rest := imageLoopGo stat fetch fuel (attempt + 1)
          (Ev.statusReq attempt :: Ev.progressSet (pollProgress attempt 150) ::
            Ev.procInfo (attempt * 2) :: Ev.sleepSecs 2 :: rest.1, rest.2)
      else
        let rest := imageLoopGo stat fetch fuel (attempt + 1)
        (Ev.statusReq attempt :: rest.1, rest.2)

/-- The image loop with its 150-attempt budget (lines 280-281). -/
def imageRun (stat : Nat → StatusResp) (fetch : FetchResp) : List Ev × Outcome :=
  imageLoopGo stat fetch 150 0

/-! ## Image-sequence upload branch (`app.py` lines 230-316, C7) -/

/-- Outcome of the submission POST. -/
inductive SubmitResp
  | exn (msg : String)
  | http (code : Nat) (jobId : String)
deriving DecidableEq, Repr

/-- The event trace of the image-sequence side of tab 1 (lines 230-316),
given the number of uploaded files and whether the analyze button was
pressed.  `if uploaded_files:` (line 239) is false for zero files, so
nothing at all happens; with fewer than 2 files only the count info and the
warning of line 252 appear; otherwise a press of the button submits and
polls.  (Thumbnail rendering, lines 242-249, issues no request and no
message and is omitted.) -/
def imageTabTrace (numFiles : Nat) (pressed : Bool) (submit : SubmitResp)
    (stat : Nat → StatusResp) (fetch : FetchResp) : List Ev :=
  if numFiles == 0 then []
  else
    Ev.infoMsg ("📸 " ++ toString numFiles ++ " images uploaded") ::
    (if numFiles < 2 then
      [Ev.warnMsg "⚠️ Please upload at least 2 images for sequence analysis"]
    else if pressed then
      Ev.submitReq ::
      (match submit with
       | .exn m => [Ev.errorMsg ("Error: " ++ m)]
       | .http code jobId =>
         if code == 200 then
           Ev.successMsg ("✅ Analysis started! Job ID: " ++ jobId.take 8 ++ "...") ::
             (imageRun stat fetch).1
         else
           [Ev.errorMsg ("Upload failed: " ++ toString code)])
    else [])

/-! ## Trace observations -/

/-- The number of status-poll requests in a trace. -/
def countStatusReq (l : List Ev) : Nat :=
  l.countP fun e => match e with | Ev.statusReq _ => true | _ => false

/-- The number of HTTP requests of any kind in a trace. -/
def countAnyReq (l : List Ev) : Nat :=
  l.countP fun e =>
    match e with
    | Ev.statusReq _ => true
    | Ev.resultReq => true
    | Ev.submitReq => true
    | _ => false

/-- The number of error messages in a trace. -/
def countErrMsg (l : List Ev) : Nat :=
  l.countP fun e => match e with | Ev.errorMsg _ => true | _ => false

/-- The successive progress-bar values of a trace. -/
def progressList (l : List Ev) : List Nat :=
  l.filterMap fun e => match e with | Ev.progressSet n => some n | _ => none

/-- The successive displayed elapsed-seconds values of a trace. -/
def elapsedList (l : List Ev) : List Nat :=
  l.filterMap fun e => match e with | Ev.procInfo n => some n | _ => none

/-- The four events of one non-terminal (`queued`/`processing`) attempt
`a`: the status request, the progress estimate, the elapsed-time info and
the 2-second sleep. -/
def ntBlock (a : Nat) : List Ev :=
  [Ev.statusReq a, Ev.progressSet (pollProgress a 150),
   Ev.procInfo (a * 2), Ev.sleepSecs 2]

/-- A status response that keeps the loop polling: HTTP 200 with a decoded
status that is neither `completed` nor `failed` (`queued`, `processing`). -/
def isNTb (r : StatusResp) : Bool :=
  match r with
  | .exn _ => false
  | .http code status _ => code == 200 && !(status == "completed") && !(status == "failed")

/-! ## Helper lemmas about the polling loops -/

/-- The full trace of `n` consecutive non-terminal attempts starting at
attempt `a`. -/
def ntTrace (a n : Nat) : List Ev :=
  ((List.range' a n).map ntBlock).flatten

theorem ntTrace_zero (a : Nat) : ntTrace a 0 = [] := rfl

theorem ntTrace_succ (a n : Nat) : ntTrace a (n + 1) = ntBlock a ++ ntTrace (a + 1) n := by
  simp [ntTrace, List.range'_succ]

theorem pollProgress_le (a m : Nat) : pollProgress a m ≤ 95 :=
  Nat.min_le_right _ _

theorem pollProgress_mono {a b : Nat} (h : a ≤ b) :
    pollProgress a 150 ≤ pollProgress b 150 :=
  min_le_min (Nat.div_le_div_right (Nat.mul_le_mul_right _ h)) (le_refl _)

theorem countStatusReq_ntTrace (n : Nat) : ∀ a, countStatusReq (ntTrace a n) = n := by
  induction n with
  | zero => intro a; simp [ntTrace_zero, countStatusReq]
  | succ m ih =>
    intro a
    simp [ntTrace_succ, countStatusReq, List.countP_append, ntBlock, List.countP_cons]
    have := ih (a + 1)
    simp [countStatusReq] at this
    omega

theorem progressList_ntTrace (n : Nat) :
    ∀ a, progressList (ntTrace a n) = (List.range' a n).map (fun x => pollProgress x 150) := by
  induction n with
  | zero => intro a; simp [ntTrace_zero, progressList]
  | succ m ih =>
    intro a
    simp [ntTrace_succ, progressList, List.filterMap_append, ntBlock, List.range'_succ]
    have := ih (a + 1)
    simp [progressList] at this
    exact this

theorem elapsedList_ntTrace (n : Nat) :
    ∀ a, elapsedList (ntTrace a n) = (List.range' a n).map (fun x => x * 2) := by
  induction n with
  | zero => intro a; simp [ntTrace_zero, elapsedList]
  | succ m ih =>
    intro a
    simp [ntTrace_succ, elapsedList, List.filterMap_append, ntBlock, List.range'_succ]
    have := ih (a + 1)
    simp [elapsedList] at this
    exact this

theorem progressList_completedTail (fetch : FetchResp) (a : Nat) :
    progressList (completedTail fetch a) = [100] := by
  cases fetch with
  | exn m => simp [completedTail, progressList]
  | http fc body =>
    by_cases h : fc == 200 <;> simp [completedTail, progressList, h]

theorem elapsedList_completedTail (fetch : FetchResp) (a : Nat) :
    elapsedList (completedTail fetch a) = [] := by
  cases fetch with
  | exn m => simp [completedTail, elapsedList]
  | http fc body =>
    by_cases h : fc == 200 <;> simp [completedTail, elapsedList, h]

theorem progressList_append (l1 l2 : List Ev) :
    progressList (l1 ++ l2) = progressList l1 ++ progressList l2 :=
  List.filterMap_append l1 l2 _

theorem elapsedList_append (l1 l2 : List Ev) :
    elapsedList (l1 ++ l2) = elapsedList l1 ++ elapsedList l2 :=
  List.filterMap_append l1 l2 _

theorem isNTb_spec {r : StatusResp} (h : isNTb r = true) :
    ∃ s eF, r = StatusResp.http 200 s eF ∧
      (s == "completed") = false ∧ (s == "failed") = false := by
  cases r with
  | exn m => simp [isNTb] at h
  | http code status errF =>
    simp only [isNTb, Bool.and_eq_true, beq_iff_eq, Bool.not_eq_true'] at h
    obtain ⟨⟨hc, h1⟩, h2⟩ := h
    exact ⟨status, errF, by rw [hc], h1, h2⟩

/-- A polling sequence that stays non-terminal for a whole fuel window
drives the video loop to budget exhaustion, its trace being exactly the
non-terminal blocks of each attempt. -/
theorem videoLoopGo_allNT (stat : Nat → StatusResp) (fetch : FetchResp) :
    ∀ fuel a0, (∀ a, a0 ≤ a → a < a0 + fuel → isNTb (stat a) = true) →
    videoLoopGo stat fetch fuel a0 = (ntTrace a0 fuel, Outcome.exhausted) := by
  intro fuel
  induction fuel with
  | zero => intro a0 _; simp [videoLoopGo, ntTrace_zero]
  | succ n ih =>
    intro a0 h
    obtain ⟨s, eF, hr, hc, hf⟩ := isNTb_spec (h a0 (le_refl _) (by omega))
    have ihx := ih (a0 + 1) (fun a h1 h2 => h a (by omega) (by omega))
    simp only [videoLoopGo, hr, hc, hf, beq_self_eq_true, if_true, Bool.false_eq_true,
      if_false, ihx, ntTrace_succ, ntBlock]
    simp

/-- Same for the image loop: on all-200 non-terminal responses its
behaviour coincides with the video loop's. -/
theorem imageLoopGo_allNT (stat : Nat → StatusResp) (fetch : FetchResp) :
    ∀ fuel a0, (∀ a, a0 ≤ a → a < a0 + fuel → isNTb (stat a) = true) →
    imageLoopGo stat fetch fuel a0 = (ntTrace a0 fuel, Outcome.exhausted) := by
  intro fuel
  induction fuel with
  | zero => intro a0 _; simp [imageLoopGo, ntTrace_zero]
  | succ n ih =>
    intro a0 h
    obtain ⟨s, eF, hr, hc, hf⟩ := isNTb_spec (h a0 (le_refl _) (by omega))
    have ihx := ih (a0 + 1) (fun a h1 h2 => h a (by omega) (by omega))
    simp only [imageLoopGo, hr, hc, hf, beq_self_eq_true, if_true, Bool.false_eq_true,
      if_false, ihx, ntTrace_succ, ntBlock]
    simp

/-- A polling sequence that is non-terminal for `j` attempts and reports
`completed` on attempt index `a0 + j` makes the video loop produce the `j`
non-terminal blocks followed by the completion tail. -/
theorem videoLoopGo_completed (stat : Nat → StatusResp) (fetch : FetchResp)
    (eF : Option String) :
    ∀ j fuel a0, j < fuel →
    (∀ a, a0 ≤ a → a < a0 + j → isNTb (stat a) = true) →
    stat (a0 + j) = StatusResp.http 200 "completed" eF →
    videoLoopGo stat fetch fuel a0 =
      (ntTrace a0 j ++ completedTail fetch (a0 + j), completedOutcome fetch) := by
  intro j
  induction j with
  | zero =>
    intro fuel a0 hfuel _ hC
    cases fuel with
    | zero => omega
    | succ n =>
      simp only [Nat.add_zero] at hC ⊢
      simp [videoLoopGo, hC, ntTrace_zero]
  | succ jj ih =>
    intro fuel a0 hfuel hNT hC
    cases fuel with
    | zero => omega
    | succ n =>
      obtain ⟨s, eF2, hr, hc, hf⟩ := isNTb_spec (hNT a0 (le_refl _) (by omega))
      have ihx := ih n (a0 + 1) (by omega) (fun a h1 h2 => hNT a (by omega) (by omega))
        (by rw [show a0 + 1 + jj = a0 + (jj + 1) from by omega]; exact hC)
      simp only [videoLoopGo, hr, hc, hf, beq_self_eq_true, if_true, Bool.false_eq_true,
        if_false, ihx, ntTrace_succ, ntBlock]
      simp [show a0 + 1 + jj = a0 + (jj + 1) from by omega]

/-- Same completion shape for the image loop. -/
theorem imageLoopGo_completed (stat : Nat → StatusResp) (fetch : FetchResp)
    (eF : Option String) :
    ∀ j fuel a0, j < fuel →
    (∀ a, a0 ≤ a → a < a0 + j → isNTb (stat a) = true) →
    stat (a0 + j) = StatusResp.http 200 "completed" eF →
    imageLoopGo stat fetch fuel a0 =
      (ntTrace a0 j ++ completedTail fetch (a0 + j), completedOutcome fetch) := by
  intro j
  induction j with
  | zero =>
    intro fuel a0 hfuel _ hC
    cases fuel with
    | zero => omega
    | succ n =>
      simp only [Nat.add_zero] at hC ⊢
      simp [imageLoopGo, hC, ntTrace_zero]
  | succ jj ih =>
    intro fuel a0 hfuel hNT hC
    cases fuel with
    | zero => omega
    | succ n =>
      obtain ⟨s, eF2, hr, hc, hf⟩ := isNTb_spec (hNT a0 (le_refl _) (by omega))
      have ihx := ih n (a0 + 1) (by omega) (fun a h1 h2 => hNT a (by omega) (by omega))
        (by rw [show a0 + 1 + jj = a0 + (jj + 1) from by omega]; exact hC)
      simp only [imageLoopGo, hr, hc, hf, beq_self_eq_true, if_true, Bool.false_eq_true,
        if_false, ihx, ntTrace_succ, ntBlock]
      simp [show a0 + 1 + jj = a0 + (jj + 1) from by omega]

/-! ## The claims -/

/-- A group whose severity bucket is rendered while `display_finding` is
not yet bound raises `NameError` on its first finding. -/
theorem renderGroup_undefined (tag : String) {fs : List RawFinding}
    (h : fs.isEmpty = false) :
    renderGroup false tag fs = Except.error "display_finding" := by
  cases fs with
  | nil => simp at h
  | cons f fs' => rfl

/-- C1: for every fetched result whose findings sequence is non-empty and
whose active severity filter includes at least one bucket containing a
finding, the tab-2 display raises a `NameError` (and renders no finding),
because lines 411/417/423 call `display_finding` before the top-level
definition at line 472 has executed. -/
theorem C1_display_finding_name_error (findings : List RawFinding)
    (sevFilter : List String)
    (_hne : findings.isEmpty = false)
    (hhit : (sevFilter.contains "High" && !(high_findings findings).isEmpty) = true
      ∨ (sevFilter.contains "Medium" && !(medium_findings findings).isEmpty) = true
      ∨ (sevFilter.contains "Low" && !(low_findings findings).isEmpty) = true) :
    tab2Run findings sevFilter = Except.error "display_finding" := by
  have step : ∀ (b : Bool) (tag : String) (l : List RawFinding),
      (b && !l.isEmpty) = true →
      (if b && !l.isEmpty then renderGroup false tag l else Except.ok []) =
        Except.error "display_finding" := by
    intro b tag l h
    rw [if_pos h]
    have hl : l.isEmpty = false := by
      cases b <;> cases hle : l.isEmpty <;> simp_all
    exact renderGroup_undefined tag hl
  unfold tab2Run tab2FindingsRender displayFindingDefinedAtTab2
  rcases hhit with h1 | h2 | h3
  · rw [step _ _ _ h1]
  · by_cases h1 : (sevFilter.contains "High" && !(high_findings findings).isEmpty) = true
    · rw [step _ _ _ h1]
    · rw [if_neg h1, step _ _ _ h2]
  · by_cases h1 : (sevFilter.contains "High" && !(high_findings findings).isEmpty) = true
    · rw [step _ _ _ h1]
    · by_cases h2 : (sevFilter.contains "Medium" && !(medium_findings findings).isEmpty) = true
      · rw [if_neg h1, step _ _ _ h2]
      · rw [if_neg h1, if_neg h2, step _ _ _ h3]

/-- Witness for C1 at a concrete input: one finding with severity "high"
and the default all-bucket filter. -/
theorem C1_display_finding_name_error_witness :
    ([(⟨none, some "high", none, none, none⟩ : RawFinding)].isEmpty = false) ∧
    ((["High", "Medium", "Low"].contains "High"
        && !(high_findings [⟨none, some "high", none, none, none⟩]).isEmpty) = true) ∧
    tab2Run [⟨none, some "high", none, none, none⟩] ["High", "Medium", "Low"] =
      Except.error "display_finding" :=
  ⟨by decide, by decide,
    C1_display_finding_name_error _ _ (by decide) (Or.inl (by decide))⟩

/-- C2: the per-call timeouts `app.py` actually passes.  The video-loop
status poll and result fetch carry `timeout=5`, but the image-sequence
loop's status poll (lines 282-284) and result fetch (lines 293-295) pass
no timeout at all — the claim's "every status poll and result fetch in
both loops is bounded by a 5-second timeout" fails there. -/
theorem C2_image_poll_timeouts_missing :
    timeoutOf ReqKind.healthCheck = some 5 ∧
    timeoutOf ReqKind.submitVideo = some 60 ∧
    timeoutOf ReqKind.submitImages = some 60 ∧
    timeoutOf ReqKind.videoStatusPoll = some 5 ∧
    timeoutOf ReqKind.videoResultFetch = some 5 ∧
    timeoutOf ReqKind.pdfExport = some 30 ∧
    timeoutOf ReqKind.imageStatusPoll = none ∧
    timeoutOf ReqKind.imageResultFetch = none := by
  decide

/-- C3: a non-2xx status response does NOT abort the image-sequence
polling loop.  With HTTP 500 on attempt 0 and `completed` on attempt 1,
the image loop silently issues a second status poll (no error message in
between) and completes, while the video loop on the same sequence aborts
at attempt 0 with "Failed to check status". -/
theorem C3_image_loop_continues_after_non2xx :
    imageRun (fun a => if a == 0 then StatusResp.http 500 "" none
        else StatusResp.http 200 "completed" none)
      (FetchResp.http 200 ⟨none, none⟩) =
      ([Ev.statusReq 0, Ev.statusReq 1, Ev.progressSet 100,
        Ev.successMsg "✅ Analysis complete!", Ev.resultReq,
        Ev.setResults ⟨none, none⟩], Outcome.gotResults ⟨none, none⟩) ∧
    videoRun (fun a => if a == 0 then StatusResp.http 500 "" none
        else StatusResp.http 200 "completed" none)
      (FetchResp.http 200 ⟨none, none⟩) =
      ([Ev.statusReq 0, Ev.errorMsg "Failed to check status"],
        Outcome.statusCheckFailed) :=
  ⟨rfl, rfl⟩

/-- C4: a non-2xx HTTP status on the result fetch after `completed` is
silently swallowed: both loops show progress 100 and "Analysis complete!",
then break with no error message at all (zero error messages in the whole
trace), contradicting the claim that every service-level error is
user-visible. -/
theorem C4_result_fetch_error_silent :
    videoRun (fun _ => StatusResp.http 200 "completed" none)
      (FetchResp.http 500 ⟨none, none⟩) =
      ([Ev.statusReq 0, Ev.progressSet 100, Ev.successMsg "✅ Analysis complete!",
        Ev.resultReq], Outcome.resultFetchSilent) ∧
    countErrMsg (videoRun (fun _ => StatusResp.http 200 "completed" none)
      (FetchResp.http 500 ⟨none, none⟩)).1 = 0 ∧
    imageRun (fun _ => StatusResp.http 200 "completed" none)
      (FetchResp.http 500 ⟨none, none⟩) =
      ([Ev.statusReq 0, Ev.progressSet 100, Ev.successMsg "✅ Analysis complete!",
        Ev.resultReq], Outcome.resultFetchSilent) ∧
    countErrMsg (imageRun (fun _ => StatusResp.http 200 "completed" none)
      (FetchResp.http 500 ⟨none, none⟩)).1 = 0 :=
  ⟨rfl, rfl, rfl, rfl⟩

/-- C5: a polling sequence that never leaves `queued`/`processing` within
150 attempts makes each loop terminate at budget exhaustion, having made
exactly 150 status-poll requests, and every progress value it displayed is
at most 95 (in particular never 100) — for both the video and the
image-sequence loop. -/
theorem C5_budget_exhaustion (stat : Nat → StatusResp) (fetch : FetchResp)
    (h : ∀ a, a < 150 → isNTb (stat a) = true) :
    (videoRun stat fetch).2 = Outcome.exhausted ∧
    countStatusReq (videoRun stat fetch).1 = 150 ∧
    (∀ n, Ev.progressSet n ∈ (videoRun stat fetch).1 → n ≤ 95) ∧
    (imageRun stat fetch).2 = Outcome.exhausted ∧
    countStatusReq (imageRun stat fetch).1 = 150 ∧
    (∀ n, Ev.progressSet n ∈ (imageRun stat fetch).1 → n ≤ 95) := by
  have hv : videoRun stat fetch = (ntTrace 0 150, Outcome.exhausted) :=
    videoLoopGo_allNT stat fetch 150 0 (fun a _ h2 => h a (by omega))
  have hi : imageRun stat fetch = (ntTrace 0 150, Outcome.exhausted) :=
    imageLoopGo_allNT stat fetch 150 0 (fun a _ h2 => h a (by omega))
  have hmem : ∀ n, Ev.progressSet n ∈ ntTrace 0 150 → n ≤ 95 := by
    intro n hn
    have hn' : n ∈ progressList (ntTrace 0 150) :=
      List.mem_filterMap.mpr ⟨Ev.progressSet n, hn, rfl⟩
    rw [progressList_ntTrace] at hn'
    obtain ⟨x, _, hxe⟩ := List.mem_map.mp hn'
    rw [← hxe]
    exact pollProgress_le x 150
  exact ⟨by rw [hv], by rw [hv]; exact countStatusReq_ntTrace 150 0,
    by rw [hv]; exact hmem, by rw [hi],
    by rw [hi]; exact countStatusReq_ntTrace 150 0, by rw [hi]; exact hmem⟩

/-- Witness for C5: the constant `processing` polling sequence. -/
theorem C5_budget_exhaustion_witness :
    (∀ a, a < 150 →
      isNTb ((fun _ => StatusResp.http 200 "processing" none) a) = true) ∧
    ((videoRun (fun _ => StatusResp.http 200 "processing" none)
        (FetchResp.http 200 ⟨none, none⟩)).2 = Outcome.exhausted ∧
    countStatusReq (videoRun (fun _ => StatusResp.http 200 "processing" none)
        (FetchResp.http 200 ⟨none, none⟩)).1 = 150 ∧
    (∀ n, Ev.progressSet n ∈ (videoRun (fun _ => StatusResp.http 200 "processing" none)
        (FetchResp.http 200 ⟨none, none⟩)).1 → n ≤ 95) ∧
    (imageRun (fun _ => StatusResp.http 200 "processing" none)
        (FetchResp.http 200 ⟨none, none⟩)).2 = Outcome.exhausted ∧
    countStatusReq (imageRun (fun _ => StatusResp.http 200 "processing" none)
        (FetchResp.http 200 ⟨none, none⟩)).1 = 150 ∧
    (∀ n, Ev.progressSet n ∈ (imageRun (fun _ => StatusResp.http 200 "processing" none)
        (FetchResp.http 200 ⟨none, none⟩)).1 → n ≤ 95)) :=
  ⟨fun _ _ => rfl, C5_budget_exhaustion _ _ (fun _ _ => rfl)⟩

/-- C6: a polling sequence that is non-terminal up to attempt index `k - 1`
and reports `completed` there (i.e. completes on the k-th attempt, k ≤ 150)
makes each loop display exactly the progress values
`min(attempt * 100 / 150, 95)` for attempts `0 … k-2` followed by `100`,
a monotonically non-decreasing sequence whose pre-completion values are
all at most 95 (so 100 appears only upon observing `completed`), with
elapsed time `attempt * 2` seconds at each non-terminal attempt — in both
loops. -/
theorem C6_progress_monotone (stat : Nat → StatusResp) (fetch : FetchResp)
    (k : Nat) (eF : Option String) (hk1 : 1 ≤ k) (hk2 : k ≤ 150)
    (hNT : ∀ a, a < k - 1 → isNTb (stat a) = true)
    (hC : stat (k - 1) = StatusResp.http 200 "completed" eF) :
    progressList (videoRun stat fetch).1 =
      (List.range (k - 1)).map (fun a => pollProgress a 150) ++ [100] ∧
    List.Pairwise (· ≤ ·) (progressList (videoRun stat fetch).1) ∧
    elapsedList (videoRun stat fetch).1 =
      (List.range (k - 1)).map (fun a => a * 2) ∧
    (∀ n ∈ (List.range (k - 1)).map (fun a => pollProgress a 150), n ≤ 95) ∧
    progressList (imageRun stat fetch).1 =
      (List.range (k - 1)).map (fun a => pollProgress a 150) ++ [100] ∧
    List.Pairwise (· ≤ ·) (progressList (imageRun stat fetch).1) ∧
    elapsedList (imageRun stat fetch).1 =
      (List.range (k - 1)).map (fun a => a * 2) := by
  have hv : videoRun stat fetch =
      (ntTrace 0 (k - 1) ++ completedTail fetch (0 + (k - 1)), completedOutcome fetch) :=
    videoLoopGo_completed stat fetch eF (k - 1) 150 0 (by omega)
      (fun a _ h2 => hNT a (by omega)) (by simpa using hC)
  have hi : imageRun stat fetch =
      (ntTrace 0 (k - 1) ++ completedTail fetch (0 + (k - 1)), completedOutcome fetch) :=
    imageLoopGo_completed stat fetch eF (k - 1) 150 0 (by omega)
      (fun a _ h2 => hNT a (by omega)) (by simpa using hC)
  have hprog : progressList (ntTrace 0 (k - 1) ++ completedTail fetch (0 + (k - 1))) =
      (List.range (k - 1)).map (fun a => pollProgress a 150) ++ [100] := by
    rw [progressList_append, progressList_ntTrace, progressList_completedTail,
      ← List.range_eq_range']
  have helap : elapsedList (ntTrace 0 (k - 1) ++ completedTail fetch (0 + (k - 1))) =
      (List.range (k - 1)).map (fun a => a * 2) := by
    rw [elapsedList_append, elapsedList_ntTrace, elapsedList_completedTail,
      List.append_nil, ← List.range_eq_range']
  have hpw : List.Pairwise (· ≤ ·)
      ((List.range (k - 1)).map (fun a => pollProgress a 150) ++ [100]) := by
    apply List.pairwise_append.mpr
    refine ⟨?_, by simp, ?_⟩
    · apply List.pairwise_map.mpr
      apply (List.pairwise_lt_range _).imp
      intro a b hab
      exact pollProgress_mono (Nat.le_of_lt hab)
    · intro a ha b hb
      rw [List.mem_singleton] at hb
      subst hb
      obtain ⟨x, _, hxe⟩ := List.mem_map.mp ha
      rw [← hxe]
      exact le_trans (pollProgress_le x 150) (by omega)
  have hle : ∀ n ∈ (List.range (k - 1)).map (fun a => pollProgress a 150), n ≤ 95 := by
    intro n hn
    obtain ⟨x, _, hxe⟩ := List.mem_map.mp hn
    rw [← hxe]
    exact pollProgress_le x 150
  have hv1 : progressList (videoRun stat fetch).1 =
      (List.range (k - 1)).map (fun a => pollProgress a 150) ++ [100] := by
    rw [hv]; exact hprog
  have hv2 : elapsedList (videoRun stat fetch).1 =
      (List.range (k - 1)).map (fun a => a * 2) := by
    rw [hv]; exact helap
  have hi1 : progressList (imageRun stat fetch).1 =
      (List.range (k - 1)).map (fun a => pollProgress a 150) ++ [100] := by
    rw [hi]; exact hprog
  have hi2 : elapsedList (imageRun stat fetch).1 =
      (List.range (k - 1)).map (fun a => a * 2) := by
    rw [hi]; exact helap
  exact ⟨hv1, by rw [hv1]; exact hpw, hv2, hle, hi1, by rw [hi1]; exact hpw, hi2⟩

/-- Witness for C6: completion on the third attempt. -/
theorem C6_progress_monotone_witness :
    (1 ≤ 3 ∧ 3 ≤ 150 ∧
     (∀ a, a < 3 - 1 → isNTb ((fun a => if a < 2 then StatusResp.http 200 "processing" none
        else StatusResp.http 200 "completed" none) a) = true) ∧
     (fun a => if a < 2 then StatusResp.http 200 "processing" none
        else StatusResp.http 200 "completed" none) (3 - 1) =
       StatusResp.http 200 "completed" none) ∧
    (progressList (videoRun (fun a => if a < 2 then StatusResp.http 200 "processing" none
        else StatusResp.http 200 "completed" none) (FetchResp.http 200 ⟨none, none⟩)).1 =
      (List.range 2).map (fun a => pollProgress a 150) ++ [100] ∧
    List.Pairwise (· ≤ ·) (progressList (videoRun
      (fun a => if a < 2 then StatusResp.http 200 "processing" none
        else StatusResp.http 200 "completed" none) (FetchResp.http 200 ⟨none, none⟩)).1) ∧
    elapsedList (videoRun (fun a => if a < 2 then StatusResp.http 200 "processing" none
        else StatusResp.http 200 "completed" none) (FetchResp.http 200 ⟨none, none⟩)).1 =
      (List.range 2).map (fun a => a * 2) ∧
    (∀ n ∈ (List.range 2).map (fun a => pollProgress a 150), n ≤ 95) ∧
    progressList (imageRun (fun a => if a < 2 then StatusResp.http 200 "processing" none
        else StatusResp.http 200 "completed" none) (FetchResp.http 200 ⟨none, none⟩)).1 =
      (List.range 2).map (fun a => pollProgress a 150) ++ [100] ∧
    List.Pairwise (· ≤ ·) (progressList (imageRun
      (fun a => if a < 2 then StatusResp.http 200 "processing" none
        else StatusResp.http 200 "completed" none) (FetchResp.http 200 ⟨none, none⟩)).1) ∧
    elapsedList (imageRun (fun a => if a < 2 then StatusResp.http 200 "processing" none
        else StatusResp.http 200 "completed" none) (FetchResp.http 200 ⟨none, none⟩)).1 =
      (List.range 2).map (fun a => a * 2)) :=
  ⟨⟨by decide, by decide,
    by intro a ha; interval_cases a <;> rfl, rfl⟩,
   C6_progress_monotone _ _ 3 none (by decide) (by decide)
     (by intro a ha; interval_cases a <;> rfl) rfl⟩

/-- C7 counterexample: with zero uploaded payloads (fewer than 2), the
image branch renders nothing at all — `if uploaded_files:` (line 239) is
false — so no warning is shown, refuting the claim that every
fewer-than-2-payload state yields a user-facing warning. (No Transport
call is made either: the trace is empty.) -/
theorem C7_zero_files_no_warning :
    imageTabTrace 0 true (SubmitResp.http 200 "job")
      (fun _ => StatusResp.http 200 "completed" none)
      (FetchResp.http 200 ⟨none, none⟩) = [] ∧
    (imageTabTrace 0 true (SubmitResp.http 200 "job")
      (fun _ => StatusResp.http 200 "completed" none)
      (FetchResp.http 200 ⟨none, none⟩)).countP
        (fun e => match e with | Ev.warnMsg _ => true | _ => false) = 0 :=
  ⟨rfl, rfl⟩

/-- C7 (amended): with exactly one uploaded payload (at least one and
fewer than 2), no HTTP request of any kind is made and the at-least-2
warning is shown; whatever the button state and whatever the network
would answer. -/
theorem C7_single_image_validation (pressed : Bool) (submit : SubmitResp)
    (stat : Nat → StatusResp) (fetch : FetchResp) (n : Nat)
    (h1 : 1 ≤ n) (h2 : n < 2) :
    imageTabTrace n pressed submit stat fetch =
      [Ev.infoMsg "📸 1 images uploaded",
       Ev.warnMsg "⚠️ Please upload at least 2 images for sequence analysis"] ∧
    countAnyReq (imageTabTrace n pressed submit stat fetch) = 0 := by
  have hn : n = 1 := by omega
  subst hn
  exact ⟨rfl, rfl⟩

/-- Witness for C7's amended statement at one uploaded image. -/
theorem C7_single_image_validation_witness :
    (1 ≤ 1 ∧ 1 < 2) ∧
    (imageTabTrace 1 true (SubmitResp.http 200 "job")
        (fun _ => StatusResp.http 200 "completed" none)
        (FetchResp.http 200 ⟨none, none⟩) =
      [Ev.infoMsg "📸 1 images uploaded",
       Ev.warnMsg "⚠️ Please upload at least 2 images for sequence analysis"] ∧
    countAnyReq (imageTabTrace 1 true (SubmitResp.http 200 "job")
        (fun _ => StatusResp.http 200 "completed" none)
        (FetchResp.http 200 ⟨none, none⟩)) = 0) :=
  ⟨⟨by decide, by decide⟩,
   C7_single_image_validation true (SubmitResp.http 200 "job")
     (fun _ => StatusResp.http 200 "completed" none)
     (FetchResp.http 200 ⟨none, none⟩) 1 (by decide) (by decide)⟩

/-- C8: bucket membership (both in the per-bucket groups and the
per-bucket counts) holds exactly when the lowercased severity string
contains the bucket's keyword as a substring; the buckets are computed
independently; `"HIGH confidence"` lands in the High bucket only; a
severity containing two keywords lands in two buckets. -/
theorem C8_severity_buckets :
    (∀ (fs : List RawFinding) (f : RawFinding),
      (f ∈ high_findings fs ↔ f ∈ fs ∧ pyIn "high" (pyLower (sevString f)) = true) ∧
      (f ∈ medium_findings fs ↔ f ∈ fs ∧ pyIn "medium" (pyLower (sevString f)) = true) ∧
      (f ∈ low_findings fs ↔ f ∈ fs ∧ pyIn "low" (pyLower (sevString f)) = true)) ∧
    (∀ fs : List RawFinding, severity_counts fs =
      ((high_findings fs).length, (medium_findings fs).length, (low_findings fs).length)) ∧
    (inBucket "high" ⟨none, some "HIGH confidence", none, none, none⟩ = true ∧
     inBucket "medium" ⟨none, some "HIGH confidence", none, none, none⟩ = false ∧
     inBucket "low" ⟨none, some "HIGH confidence", none, none, none⟩ = false) ∧
    ((⟨none, some "high but verging on low", none, none, none⟩ : RawFinding) ∈
        high_findings [⟨none, some "high but verging on low", none, none, none⟩] ∧
     (⟨none, some "high but verging on low", none, none, none⟩ : RawFinding) ∈
        low_findings [⟨none, some "high but verging on low", none, none, none⟩] ∧
     (⟨none, some "high but verging on low", none, none, none⟩ : RawFinding) ∉
        medium_findings [⟨none, some "high but verging on low", none, none, none⟩]) := by
  refine ⟨?_, ?_, ⟨rfl, rfl, rfl⟩, by decide⟩
  · intro fs f
    refine ⟨?_, ?_, ?_⟩ <;>
      simp [high_findings, medium_findings, low_findings, List.mem_filter, inBucket]
  · intro fs
    rfl

/-- C9: normalization applies the documented defaults and never fails: a
missing `media_info` becomes an empty mapping, missing `findings` an empty
sequence, and for each finding a missing `type` becomes "Unknown", missing
`severity` the empty string, missing `location` an empty mapping (rendered
"N/A"), missing `explanation` the empty string and missing `metrics` an
empty mapping; the fully-absent finding renders to a concrete card. -/
theorem C9_normalization_defaults :
    (∀ fnd, getMediaInfo ⟨none, fnd⟩ = []) ∧
    (∀ mi, getFindings ⟨mi, none⟩ = []) ∧
    (∀ sev loc expl met, finding_type ⟨none, sev, loc, expl, met⟩ = "Unknown") ∧
    (∀ t loc expl met, sevString ⟨t, none, loc, expl, met⟩ = "") ∧
    (∀ t sev expl met, getLocation ⟨t, sev, none, expl, met⟩ = ⟨none, none, none⟩) ∧
    loc_str ⟨none, none, none⟩ = "N/A" ∧
    (∀ t sev expl met, loc_str (getLocation ⟨t, sev, none, expl, met⟩) = "N/A") ∧
    (∀ t sev loc met, getExplanation ⟨t, sev, loc, none, met⟩ = "") ∧
    (∀ t sev loc expl, getMetrics ⟨t, sev, loc, expl, none⟩ = []) ∧
    display_finding ⟨none, none, none, none, none⟩ =
      { typeShown := "Unknown", locShown := "N/A", explShown := "", metricsShown := [] } :=
  ⟨fun _ => rfl, fun _ => rfl, fun _ _ _ _ => rfl, fun _ _ _ _ => rfl,
   fun _ _ _ _ => rfl, rfl, fun _ _ _ _ => rfl, fun _ _ _ _ => rfl,
   fun _ _ _ _ => rfl, rfl⟩

/-- C10 counterexample: with `failed` and `error="corrupt file"` on the
first poll, the loop does stop after one attempt with no result fetch, but
the user-visible failure message is "❌ Analysis failed: corrupt file"
(line 211), which is not equal to the server-supplied string
"corrupt file". -/
theorem C10_failed_message_not_verbatim :
    videoRun (fun _ => StatusResp.http 200 "failed" (some "corrupt file"))
      (FetchResp.http 200 ⟨none, none⟩) =
      ([Ev.statusReq 0, Ev.errorMsg "❌ Analysis failed: corrupt file"],
        Outcome.jobFailed "corrupt file") ∧
    (("❌ Analysis failed: corrupt file" : String) == "corrupt file") = false ∧
    countStatusReq [Ev.statusReq 0, Ev.errorMsg "❌ Analysis failed: corrupt file"] = 1 :=
  ⟨rfl, by decide, rfl⟩

/-- A `failed` status response with an error message terminates either
loop at that attempt with the formatted failure message. -/
theorem videoLoopGo_failed_first (stat : Nat → StatusResp) (fetch : FetchResp)
    (fuel attempt : Nat) (msg : String)
    (h : stat attempt = StatusResp.http 200 "failed" (some msg)) :
    videoLoopGo stat fetch (fuel + 1) attempt =
      ([Ev.statusReq attempt, Ev.errorMsg ("❌ Analysis failed: " ++ msg)],
        Outcome.jobFailed msg) := by
  simp [videoLoopGo, h]

/-- Image-loop variant of `videoLoopGo_failed_first`. -/
theorem imageLoopGo_failed_first (stat : Nat → StatusResp) (fetch : FetchResp)
    (fuel attempt : Nat) (msg : String)
    (h : stat attempt = StatusResp.http 200 "failed" (some msg)) :
    imageLoopGo stat fetch (fuel + 1) attempt =
      ([Ev.statusReq attempt, Ev.errorMsg ("❌ Analysis failed: " ++ msg)],
        Outcome.jobFailed msg) := by
  simp [imageLoopGo, h]

/-- C10 (amended): when the first status poll reports `failed` with
`error="corrupt file"`, each loop stops after exactly one status-poll
attempt, makes no result fetch, and the one user-visible failure message
is "❌ Analysis failed: corrupt file" — the server-supplied error text
carried verbatim as its suffix rather than the whole message. -/
theorem C10_failed_first_poll (stat : Nat → StatusResp) (fetch : FetchResp)
    (h : stat 0 = StatusResp.http 200 "failed" (some "corrupt file")) :
    videoRun stat fetch =
      ([Ev.statusReq 0, Ev.errorMsg "❌ Analysis failed: corrupt file"],
        Outcome.jobFailed "corrupt file") ∧
    imageRun stat fetch =
      ([Ev.statusReq 0, Ev.errorMsg "❌ Analysis failed: corrupt file"],
        Outcome.jobFailed "corrupt file") ∧
    countStatusReq (videoRun stat fetch).1 = 1 ∧
    countAnyReq (videoRun stat fetch).1 = 1 ∧
    countStatusReq (imageRun stat fetch).1 = 1 ∧
    countAnyReq (imageRun stat fetch).1 = 1 := by
  have hv : videoRun stat fetch =
      ([Ev.statusReq 0, Ev.errorMsg "❌ Analysis failed: corrupt file"],
        Outcome.jobFailed "corrupt file") :=
    videoLoopGo_failed_first stat fetch 149 0 "corrupt file" h
  have hi : imageRun stat fetch =
      ([Ev.statusReq 0, Ev.errorMsg "❌ Analysis failed: corrupt file"],
        Outcome.jobFailed "corrupt file") :=
    imageLoopGo_failed_first stat fetch 149 0 "corrupt file" h
  exact ⟨hv, hi, by rw [hv]; rfl, by rw [hv]; rfl, by rw [hi]; rfl, by rw [hi]; rfl⟩

/-- Witness for C10's amended statement. -/
theorem C10_failed_first_poll_witness :
    ((fun _ => StatusResp.http 200 "failed" (some "corrupt file")) 0 =
      StatusResp.http 200 "failed" (some "corrupt file")) ∧
    (videoRun (fun _ => StatusResp.http 200 "failed" (some "corrupt file"))
        (FetchResp.http 200 ⟨none, none⟩) =
      ([Ev.statusReq 0, Ev.errorMsg "❌ Analysis failed: corrupt file"],
        Outcome.jobFailed "corrupt file") ∧
    imageRun (fun _ => StatusResp.http 200 "failed" (some "corrupt file"))
        (FetchResp.http 200 ⟨none, none⟩) =
      ([Ev.statusReq 0, Ev.errorMsg "❌ Analysis failed: corrupt file"],
        Outcome.jobFailed "corrupt file") ∧
    countStatusReq (videoRun (fun _ => StatusResp.http 200 "failed" (some "corrupt file"))
        (FetchResp.http 200 ⟨none, none⟩)).1 = 1 ∧
    countAnyReq (videoRun (fun _ => StatusResp.http 200 "failed" (some "corrupt file"))
        (FetchResp.http 200 ⟨none, none⟩)).1 = 1 ∧
    countStatusReq (imageRun (fun _ => StatusResp.http 200 "failed" (some "corrupt file"))
        (FetchResp.http 200 ⟨none, none⟩)).1 = 1 ∧
    countAnyReq (imageRun (fun _ => StatusResp.http 200 "failed" (some "corrupt file"))
        (FetchResp.http 200 ⟨none, none⟩)).1 = 1) :=
  ⟨rfl, C10_failed_first_poll _ _ rfl⟩

end FrameApp
